import Mathlib

/-!
Shallow embedding of the PowerPoint content processor
(`src/samples/medium-complexity.py`, class `PowerPointProcessor`).

Python strings are modelled as Lean `String`s (lists of characters);
Python's `str.strip`, `str.lower`, substring test (`in`), `str.split`
and slicing are modelled by the executable helpers below.  A python-pptx
shape is modelled by the record `Shape`, carrying exactly the attributes
the processor reads: the numeric `shape_type` tag (`MSO_SHAPE_TYPE`),
the shape `name`, the optional plain `text` attribute (`none` models a
shape without a `text` attribute, e.g. a table graphic-frame), the table
cell grid, the optional sub-shape texts (`some _` models a group shape,
i.e. a shape exposing a `shapes` attribute), and whether
`placeholder_format` is non-`None`.
-/

namespace PPTX

/-- Python `str.strip()`: drop whitespace from both ends. -/
def pyStrip (s : String) : String :=
  String.mk (((s.data.dropWhile Char.isWhitespace).reverse.dropWhile Char.isWhitespace).reverse)

/-- Python `str.lower()`. -/
def pyLower (s : String) : String :=
  String.mk (s.data.map Char.toLower)

/-- Python substring test `pat in hay`. -/
def containsSubstr (hay pat : String) : Bool :=
  decide (pat.data <:+: hay.data)

/-- Python `s[:n]`: keep the first `n` characters. -/
def pyTake (n : Nat) (s : String) : String :=
  String.mk (s.data.take n)

/-- Python `sep.join(parts)`. -/
def joinSep (sep : String) : List String → String
  | [] => ""
  | [x] => x
  | x :: xs => x ++ sep ++ joinSep sep xs

/-- The numeric `MSO_SHAPE_TYPE` tags the processor dispatches on. -/
def msoAutoShape : Nat := 1
def msoLine : Nat := 9
def msoPicture : Nat := 13
def msoTextBox : Nat := 17
def msoTable : Nat := 19

/-- A python-pptx shape, restricted to the attributes the processor reads. -/
structure Shape where
  shape_type : Nat
  name : String
  /-- `none` models a shape without a `text` attribute (e.g. a table
  graphic-frame or a picture); `some t` models `shape.text = t`. -/
  text : Option String
  /-- Cell texts of `shape.table`, row major (only meaningful for tables). -/
  table_cells : List (List String)
  /-- `some ts` models a group shape (one exposing a `shapes` attribute)
  whose sub-shapes have the given optional texts. -/
  sub_shapes : Option (List (Option String))
  /-- Whether `shape.placeholder_format` is non-`None`. -/
  has_placeholder_format : Bool
deriving DecidableEq

structure Slide where
  shapes : List Shape
deriving DecidableEq

instance : Inhabited Slide := ⟨⟨[]⟩⟩

/-- Python truthiness of `hasattr(shape, "text") and shape.text.strip()`. -/
def shapeHasText (sh : Shape) : Bool :=
  match sh.text with
  | some t => pyStrip t ≠ ""
  | none => false

/-! ### Slide filter (`_filter_useless_slides`) -/

/-- The fixed skip-pattern list of `_filter_useless_slides`. -/
def skip_patterns : List String :=
  ["thank you", "thanks", "appendix", "questions", "q&a",
   "contact us", "contact information", "contact:"]

/-- The per-slide text the filter matches patterns against:
`slide_text += " " + shape.text.strip().lower()` over the shapes that
have a `text` attribute with non-empty stripped text. -/
def slideFilterText (sl : Slide) : String :=
  sl.shapes.foldl
    (fun acc sh =>
      match sh.text with
      | some t => if pyStrip t ≠ "" then acc ++ " " ++ pyLower (pyStrip t) else acc
      | none => acc)
    ""

/-- `should_skip` for one slide: some skip pattern occurs in the slide text. -/
def shouldSkipSlide (sl : Slide) : Bool :=
  skip_patterns.any (fun p => containsSubstr (slideFilterText sl) p)

/-- The filter loop: enumerate slides with 1-based indices, appending each
index to `valid_slides` or `removed_slides`. -/
def filterAux : Nat → List Slide → List Nat × List Nat
  | _, [] => ([], [])
  | idx, sl :: rest =>
    let r := filterAux (idx + 1) rest
    if shouldSkipSlide sl then (r.1, idx :: r.2) else (idx :: r.1, r.2)

/-- `_filter_useless_slides`: returns `(valid_slides, removed_slides)`. -/
def filter_useless_slides (slides : List Slide) : List Nat × List Nat :=
  filterAux 1 slides

/-- The spec-level removal condition: some fixed skip pattern occurs as a
substring of the case-folded concatenated slide text. -/
def HasSkipPattern (sl : Slide) : Prop :=
  ∃ p ∈ skip_patterns, p.data <:+: (slideFilterText sl).data

instance (sl : Slide) : Decidable (HasSkipPattern sl) := by
  unfold HasSkipPattern; infer_instance

theorem shouldSkipSlide_iff (sl : Slide) :
    shouldSkipSlide sl = true ↔ HasSkipPattern sl := by
  simp [shouldSkipSlide, HasSkipPattern, containsSubstr, List.any_eq_true]

theorem filterAux_fst_lb {start : Nat} {l : List Slide} {x : Nat}
    (hx : x ∈ (filterAux start l).1) : start ≤ x := by
  induction l generalizing start with
  | nil => simp [filterAux] at hx
  | cons sl rest ih =>
    unfold filterAux at hx
    by_cases h : shouldSkipSlide sl = true
    · simp only [h, if_pos rfl, if_true] at hx
      exact Nat.le_of_succ_le (ih hx)
    · simp only [if_neg h, List.mem_cons] at hx
      rcases hx with rfl | hx
      · exact Nat.le_refl x
      · exact Nat.le_of_succ_le (ih hx)

theorem filterAux_snd_lb {start : Nat} {l : List Slide} {x : Nat}
    (hx : x ∈ (filterAux start l).2) : start ≤ x := by
  induction l generalizing start with
  | nil => simp [filterAux] at hx
  | cons sl rest ih =>
    unfold filterAux at hx
    by_cases h : shouldSkipSlide sl = true
    · simp only [h, if_true, List.mem_cons] at hx
      rcases hx with rfl | hx
      · exact Nat.le_refl x
      · exact Nat.le_of_succ_le (ih hx)
    · simp only [if_neg h] at hx
      exact Nat.le_of_succ_le (ih hx)

theorem filterAux_cons_true {sl : Slide} {rest : List Slide} {start : Nat}
    (hs : shouldSkipSlide sl = true) :
    filterAux start (sl :: rest) =
      ((filterAux (start + 1) rest).1, start :: (filterAux (start + 1) rest).2) := by
  simp [filterAux, hs]

theorem filterAux_cons_false {sl : Slide} {rest : List Slide} {start : Nat}
    (hs : shouldSkipSlide sl = false) :
    filterAux start (sl :: rest) =
      (start :: (filterAux (start + 1) rest).1, (filterAux (start + 1) rest).2) := by
  simp [filterAux, hs]

theorem mem_filterAux (start : Nat) (l : List Slide) (i : Nat) (h : i < l.length) :
    ((start + i) ∈ (filterAux start l).2 ↔ shouldSkipSlide (l.get ⟨i, h⟩) = true)
  ∧ ((start + i) ∈ (filterAux start l).1 ↔ shouldSkipSlide (l.get ⟨i, h⟩) = false) := by
  induction l generalizing start i with
  | nil => exact absurd h (Nat.not_lt_zero i)
  | cons sl rest ih =>
    cases i with
    | zero =>
      have hget : (sl :: rest).get ⟨0, h⟩ = sl := rfl
      rw [hget, Nat.add_zero]
      cases hs : shouldSkipSlide sl with
      | true =>
        rw [filterAux_cons_true hs]
        constructor
        · simp
        · exact iff_of_false
            (fun hm => absurd (filterAux_fst_lb hm) (Nat.not_succ_le_self start))
            (by simp)
      | false =>
        rw [filterAux_cons_false hs]
        constructor
        · exact iff_of_false
            (fun hm => absurd (filterAux_snd_lb hm) (Nat.not_succ_le_self start))
            (by simp)
        · simp
    | succ j =>
      have hj : j < rest.length := Nat.lt_of_succ_lt_succ h
      have hget : (sl :: rest).get ⟨j + 1, h⟩ = rest.get ⟨j, hj⟩ := rfl
      have harith : start + (j + 1) = (start + 1) + j := by omega
      rw [hget, harith]
      have ihj := ih (start + 1) j hj
      cases hs : shouldSkipSlide sl with
      | true =>
        rw [filterAux_cons_true hs]
        refine ⟨?_, ihj.2⟩
        rw [List.mem_cons]
        constructor
        · rintro (hm | hm)
          · exact absurd hm (by omega)
          · exact ihj.1.mp hm
        · intro hp; exact Or.inr (ihj.1.mpr hp)
      | false =>
        rw [filterAux_cons_false hs]
        refine ⟨ihj.1, ?_⟩
        rw [List.mem_cons]
        constructor
        · rintro (hm | hm)
          · exact absurd hm (by omega)
          · exact ihj.2.mp hm
        · intro hp; exact Or.inr (ihj.2.mpr hp)

end PPTX

namespace PPTX

/-- C4: a slide is marked removed iff some skip pattern occurs as a substring
of its case-folded concatenated shape text; otherwise it is kept as valid. -/
theorem filter_marks_slides_by_skip_patterns (slides : List Slide) (i : Nat)
    (h : i < slides.length) :
    ((i + 1) ∈ (filter_useless_slides slides).2 ↔ HasSkipPattern (slides.get ⟨i, h⟩))
  ∧ ((i + 1) ∈ (filter_useless_slides slides).1 ↔ ¬ HasSkipPattern (slides.get ⟨i, h⟩)) := by
  have hm := mem_filterAux 1 slides i h
  rw [Nat.add_comm 1 i] at hm
  constructor
  · rw [filter_useless_slides, hm.1, shouldSkipSlide_iff]
  · rw [filter_useless_slides, hm.2, ← shouldSkipSlide_iff]
    simp [Bool.not_eq_true]

/-- A concrete "Thank You" slide and a concrete content slide. -/
def thankYouShape : Shape :=
  { shape_type := msoTextBox, name := "TextBox 3", text := some "Thank You",
    table_cells := [], sub_shapes := none, has_placeholder_format := false }

def agendaShape : Shape :=
  { shape_type := msoTextBox, name := "TextBox 1", text := some "Agenda",
    table_cells := [], sub_shapes := none, has_placeholder_format := false }

def thankYouSlide : Slide := ⟨[thankYouShape]⟩

def agendaSlide : Slide := ⟨[agendaShape]⟩

theorem filter_marks_slides_by_skip_patterns_witness :
    (1 < [agendaSlide, thankYouSlide].length)
  ∧ ((1 + 1) ∈ (filter_useless_slides [agendaSlide, thankYouSlide]).2
       ↔ HasSkipPattern ([agendaSlide, thankYouSlide].get ⟨1, by decide⟩)) :=
  ⟨by decide,
   (filter_marks_slides_by_skip_patterns [agendaSlide, thankYouSlide] 1 (by decide)).1⟩

end PPTX

namespace PPTX

/-! ### Slide classifier (`_is_complex_slide`, `_separate_slides_by_complexity`) -/

/-- Placeholder detection of `_is_complex_slide`: the lower-cased name contains
"footer", "slide number" or "placeholder", or `placeholder_format` is non-`None`. -/
def isPlaceholderShape (sh : Shape) : Bool :=
  containsSubstr (pyLower sh.name) "footer" ||
    containsSubstr (pyLower sh.name) "slide number" ||
    containsSubstr (pyLower sh.name) "placeholder" ||
    sh.has_placeholder_format

/-- The `content_objects` list: non-placeholder shapes, in traversal order. -/
def contentShapes (sl : Slide) : List Shape :=
  sl.shapes.filter (fun sh => !isPlaceholderShape sh)

/-- Membership test of the `visual_graphics` list built by `_is_complex_slide`:
pictures and lines always; auto shapes unless they are a simple text
rectangle (name contains "rectangle"/"rect", non-empty text, text longer
than 10 characters). -/
def isVisualGraphic (sh : Shape) : Bool :=
  if sh.shape_type == msoPicture then true
  else if sh.shape_type == msoLine then true
  else if sh.shape_type == msoAutoShape then
    !((containsSubstr (pyLower sh.name) "rectangle" ||
        containsSubstr (pyLower sh.name) "rect") &&
      shapeHasText sh &&
      decide ((pyStrip (sh.text.getD "")).length > 10))
  else false

/-- `_is_complex_slide`: the complexity criteria disjunction over content shapes. -/
def is_complex_slide (sl : Slide) : Bool :=
  let content := contentShapes sl
  let num_content_objects := content.length
  let num_tables := content.countP (fun sh => sh.shape_type == msoTable)
  let num_pictures := content.countP (fun sh => sh.shape_type == msoPicture)
  let visual_graphics := content.filter isVisualGraphic
  let has_connectors := content.any (fun sh => containsSubstr (pyLower sh.name) "connector")
  let has_groups := content.any (fun sh => sh.sub_shapes.isSome)
  decide (num_content_objects > 6) || decide (visual_graphics.length > 2) ||
    has_connectors || has_groups || decide (num_pictures > 0) ||
    (decide (num_tables > 0) && decide (visual_graphics.length > 0))

inductive Category where
  | table
  | complex
  | simple
deriving DecidableEq

/-- The per-slide decision of `_separate_slides_by_complexity`: complexity test
first, then the mixed table+text-box override, then table, else simple. -/
def classify_slide (sl : Slide) : Category :=
  if is_complex_slide sl then Category.complex
  else
    let has_table := sl.shapes.any (fun sh => sh.shape_type == msoTable)
    let has_textbox := sl.shapes.any (fun sh => sh.shape_type == msoTextBox && shapeHasText sh)
    if has_table && has_textbox then Category.complex
    else if has_table then Category.table
    else Category.simple

/-- `_separate_slides_by_complexity` main path: returns
`(table_slides, complex_slides, simple_slides)`.  A 1-based index `idx`
addresses `prs.slides[idx - 1]`. -/
def separate_slides_by_complexity (slides : List Slide) : List Nat → List Nat × List Nat × List Nat
  | [] => ([], [], [])
  | idx :: rest =>
    let r := separate_slides_by_complexity slides rest
    match classify_slide (slides.getD (idx - 1) default) with
    | Category.complex => (r.1, idx :: r.2.1, r.2.2)
    | Category.table => (idx :: r.1, r.2.1, r.2.2)
    | Category.simple => (r.1, r.2.1, idx :: r.2.2)

/-- `_separate_table_slides` (used by the error fallback): split valid slides
into table-bearing and regular slides. -/
def separate_table_slides (slides : List Slide) : List Nat → List Nat × List Nat
  | [] => ([], [])
  | idx :: rest =>
    let r := separate_table_slides slides rest
    if (slides.getD (idx - 1) default).shapes.any (fun sh => sh.shape_type == msoTable)
    then (idx :: r.1, r.2) else (r.1, idx :: r.2)

/-- The `except` fallback of `_separate_slides_by_complexity`: the original
table separation with an empty complex list. -/
def separate_slides_fallback (slides : List Slide) (valid : List Nat) :
    List Nat × List Nat × List Nat :=
  ((separate_table_slides slides valid).1, [], (separate_table_slides slides valid).2)

theorem separate_perm (slides : List Slide) (valid : List Nat) :
    List.Perm ((separate_slides_by_complexity slides valid).1 ++
      (separate_slides_by_complexity slides valid).2.1 ++
      (separate_slides_by_complexity slides valid).2.2) valid := by
  induction valid with
  | nil => simp [separate_slides_by_complexity]
  | cons idx rest ih =>
    cases hc : classify_slide (slides.getD (idx - 1) default) with
    | table =>
      simp only [separate_slides_by_complexity, hc]
      simpa using ih.cons idx
    | complex =>
      simp only [separate_slides_by_complexity, hc]
      refine List.Perm.trans ?_ (ih.cons idx)
      simp only [List.append_assoc, List.cons_append]
      exact List.perm_middle
    | simple =>
      simp only [separate_slides_by_complexity, hc]
      refine List.Perm.trans ?_ (ih.cons idx)
      exact List.perm_middle

theorem separate_table_perm (slides : List Slide) (valid : List Nat) :
    List.Perm ((separate_table_slides slides valid).1 ++
      (separate_table_slides slides valid).2) valid := by
  induction valid with
  | nil => simp [separate_table_slides]
  | cons idx rest ih =>
    cases hb : (slides.getD (idx - 1) default).shapes.any
        (fun sh => sh.shape_type == msoTable) with
    | true =>
      simp only [separate_table_slides, hb, if_true]
      simpa using ih.cons idx
    | false =>
      simp only [separate_table_slides, hb, Bool.false_eq_true, if_false]
      refine List.Perm.trans ?_ (ih.cons idx)
      exact List.perm_middle

end PPTX

namespace PPTX

/-- C1: classification partitions the valid slide indices: the three returned
lists together are a permutation of the input, every index lands in some
list exactly when it was in the input, and for duplicate-free input no
index appears twice (across or within lists) — on the main path and on
the error-fallback path (`_separate_table_slides` with an empty complex
list). -/
theorem classification_partitions_valid_slides (slides : List Slide) (valid : List Nat) :
    List.Perm ((separate_slides_by_complexity slides valid).1 ++
      (separate_slides_by_complexity slides valid).2.1 ++
      (separate_slides_by_complexity slides valid).2.2) valid
  ∧ (∀ i : Nat,
      (i ∈ (separate_slides_by_complexity slides valid).1 ∨
       i ∈ (separate_slides_by_complexity slides valid).2.1 ∨
       i ∈ (separate_slides_by_complexity slides valid).2.2) ↔ i ∈ valid)
  ∧ (valid.Nodup →
      ((separate_slides_by_complexity slides valid).1 ++
       (separate_slides_by_complexity slides valid).2.1 ++
       (separate_slides_by_complexity slides valid).2.2).Nodup)
  ∧ List.Perm ((separate_slides_fallback slides valid).1 ++
      (separate_slides_fallback slides valid).2.1 ++
      (separate_slides_fallback slides valid).2.2) valid
  ∧ (valid.Nodup →
      ((separate_slides_fallback slides valid).1 ++
       (separate_slides_fallback slides valid).2.1 ++
       (separate_slides_fallback slides valid).2.2).Nodup) := by
  have hp := separate_perm slides valid
  have hf : List.Perm ((separate_slides_fallback slides valid).1 ++
      (separate_slides_fallback slides valid).2.1 ++
      (separate_slides_fallback slides valid).2.2) valid := by
    simpa [separate_slides_fallback] using separate_table_perm slides valid
  refine ⟨hp, ?_, fun hnd => hp.nodup_iff.mpr hnd, hf, fun hnd => hf.nodup_iff.mpr hnd⟩
  intro i
  rw [← hp.mem_iff]
  simp [List.mem_append, or_assoc]

theorem classification_partitions_valid_slides_witness :
    ((separate_slides_by_complexity [agendaSlide, thankYouSlide] [1, 2]).1 ++
     (separate_slides_by_complexity [agendaSlide, thankYouSlide] [1, 2]).2.1 ++
     (separate_slides_by_complexity [agendaSlide, thankYouSlide] [1, 2]).2.2).Nodup :=
  (classification_partitions_valid_slides [agendaSlide, thankYouSlide] [1, 2]).2.2.1
    (by decide)

/-! ### C2: the complexity criterion, stated as in the spec -/

/-- Spec: an AutoShape is a "simple text rectangle" when its name contains
"rectangle" or "rect", it has non-empty text, and that text exceeds 10
characters. -/
abbrev SimpleTextRectangle (sh : Shape) : Prop :=
  ("rectangle".data <:+: (pyLower sh.name).data ∨ "rect".data <:+: (pyLower sh.name).data)
  ∧ shapeHasText sh = true
  ∧ (pyStrip (sh.text.getD "")).length > 10

/-- Spec: visual graphics are content shapes that are Pictures, Lines, or
AutoShapes that are not simple text rectangles. -/
abbrev VisualGraphic (sh : Shape) : Prop :=
  sh.shape_type = msoPicture ∨ sh.shape_type = msoLine ∨
    (sh.shape_type = msoAutoShape ∧ ¬ SimpleTextRectangle sh)

/-- Spec-side complexity condition: the disjunction of claim C2 over the
content (non-placeholder) shapes. -/
def ComplexSpec (sl : Slide) : Prop :=
  (contentShapes sl).length > 6
  ∨ ((contentShapes sl).filter (fun sh => decide (VisualGraphic sh))).length > 2
  ∨ (∃ sh ∈ contentShapes sl, "connector".data <:+: (pyLower sh.name).data)
  ∨ (∃ sh ∈ contentShapes sl, sh.sub_shapes.isSome = true)
  ∨ (∃ sh ∈ contentShapes sl, sh.shape_type = msoPicture)
  ∨ ((∃ sh ∈ contentShapes sl, sh.shape_type = msoTable)
      ∧ (∃ sh ∈ contentShapes sl, VisualGraphic sh))

theorem bool_eq_of_iff {a b : Bool} (h : a = true ↔ b = true) : a = b := by
  cases a <;> cases b <;> simp_all

theorem isVisualGraphic_iff (sh : Shape) :
    isVisualGraphic sh = true ↔ VisualGraphic sh := by
  unfold isVisualGraphic VisualGraphic SimpleTextRectangle containsSubstr
  split_ifs with h13 h9 h1
  · rw [beq_iff_eq] at h13
    simp [h13]
  · rw [beq_iff_eq] at h9
    rw [beq_iff_eq] at h13
    simp [h9, h13, msoPicture, msoLine]
  · rw [beq_iff_eq] at h1
    simp only [h1, msoAutoShape, msoPicture, msoLine]
    norm_num
    cases hb : shapeHasText sh
    · simp [hb]
    · simp only [hb, Bool.and_true, Bool.true_and, Bool.not_eq_true',
        Bool.and_eq_false_iff, Bool.or_eq_false_iff, decide_eq_false_iff_not,
        Bool.not_eq_true, true_and]
      tauto
  · rw [beq_iff_eq] at h13 h9 h1
    simp [h13, h9, h1]

theorem isVisualGraphic_eq (sh : Shape) :
    isVisualGraphic sh = decide (VisualGraphic sh) :=
  bool_eq_of_iff (by rw [isVisualGraphic_iff, decide_eq_true_iff])

/-- C2: `_is_complex_slide` returns true exactly on the spec disjunction. -/
theorem is_complex_slide_iff_spec (sl : Slide) :
    is_complex_slide sl = true ↔ ComplexSpec sl := by
  have hvg : (contentShapes sl).filter isVisualGraphic =
      (contentShapes sl).filter (fun sh => decide (VisualGraphic sh)) :=
    List.filter_congr (fun sh _ => isVisualGraphic_eq sh)
  simp only [is_complex_slide, ComplexSpec]
  rw [hvg]
  simp only [Bool.or_eq_true, Bool.and_eq_true, decide_eq_true_iff,
    List.any_eq_true, ← List.countP_eq_length_filter, List.countP_pos_iff,
    beq_iff_eq, containsSubstr, or_assoc]

end PPTX

namespace PPTX

/-! ### C3: the Step-B table/text decision -/

/-- The slide contains a Table-variant shape (`shape.shape_type == MSO_SHAPE_TYPE.TABLE`). -/
abbrev HasTableShape (sl : Slide) : Prop :=
  ∃ sh ∈ sl.shapes, sh.shape_type = msoTable

/-- The slide contains a TextBox-variant shape with non-empty text. -/
abbrev HasTextBoxWithText (sl : Slide) : Prop :=
  ∃ sh ∈ sl.shapes, sh.shape_type = msoTextBox ∧ shapeHasText sh = true

/-- C3: for a slide that Step A does not classify Complex, a table plus a
non-empty text box forces Complex (never Table); a table alone gives
Table; no table gives Simple. -/
theorem step_b_mixed_table_text_override (sl : Slide)
    (hnc : is_complex_slide sl = false) :
    (HasTableShape sl → HasTextBoxWithText sl →
      classify_slide sl = Category.complex ∧ classify_slide sl ≠ Category.table)
  ∧ (HasTableShape sl → ¬ HasTextBoxWithText sl → classify_slide sl = Category.table)
  ∧ (¬ HasTableShape sl → classify_slide sl = Category.simple) := by
  have hcond : ¬ (is_complex_slide sl = true) := by simp [hnc]
  refine ⟨fun ht hx => ?_, fun ht hx => ?_, fun ht => ?_⟩
  · have hT : (sl.shapes.any fun sh => sh.shape_type == msoTable) = true := by
      simp only [List.any_eq_true, beq_iff_eq]; exact ht
    have hX : (sl.shapes.any fun sh => sh.shape_type == msoTextBox && shapeHasText sh) = true := by
      simp only [List.any_eq_true, Bool.and_eq_true, beq_iff_eq]; exact hx
    constructor
    · simp [classify_slide, hcond, hT, hX]
    · simp [classify_slide, hcond, hT, hX]
  · have hT : (sl.shapes.any fun sh => sh.shape_type == msoTable) = true := by
      simp only [List.any_eq_true, beq_iff_eq]; exact ht
    have hX : ¬ ((sl.shapes.any fun sh => sh.shape_type == msoTextBox && shapeHasText sh) = true) := by
      simp only [List.any_eq_true, Bool.and_eq_true, beq_iff_eq]; exact hx
    simp [classify_slide, hcond, hT, hX]
  · have hT : ¬ ((sl.shapes.any fun sh => sh.shape_type == msoTable) = true) := by
      simp only [List.any_eq_true, beq_iff_eq]; exact ht
    simp [classify_slide, hcond, hT]

/-- A table shape, a text box with text, and the three Step-B witness slides. -/
def quarterTableShape : Shape :=
  { shape_type := msoTable, name := "Table 4", text := none,
    table_cells := [["Quarter", "Revenue"], ["Q1", "100"]],
    sub_shapes := none, has_placeholder_format := false }

def resultsTextShape : Shape :=
  { shape_type := msoTextBox, name := "TextBox 2", text := some "Q1 Results",
    table_cells := [], sub_shapes := none, has_placeholder_format := false }

def mixedSlide : Slide := ⟨[quarterTableShape, resultsTextShape]⟩

def tableOnlySlide : Slide := ⟨[quarterTableShape]⟩

theorem step_b_mixed_table_text_override_witness :
    classify_slide mixedSlide = Category.complex
  ∧ classify_slide tableOnlySlide = Category.table
  ∧ classify_slide agendaSlide = Category.simple :=
  ⟨((step_b_mixed_table_text_override mixedSlide (by decide)).1
      (by decide) (by decide)).1,
   (step_b_mixed_table_text_override tableOnlySlide (by decide)).2.1
      (by decide) (by decide),
   (step_b_mixed_table_text_override agendaSlide (by decide)).2.2 (by decide)⟩

end PPTX

namespace PPTX

/-! ### Text extraction (`_extract_text_from_table`, `_extract_text_from_slide`) -/

/-- `_extract_text_from_table`: non-empty cell texts joined with " | " per
row, non-empty rows joined with newlines. -/
def extract_text_from_table (sh : Shape) : String :=
  joinSep "\n" (sh.table_cells.filterMap (fun row =>
    let cells := row.filterMap (fun c => if pyStrip c ≠ "" then some (pyStrip c) else none)
    if cells.isEmpty then none else some (joinSep " | " cells)))

/-- `_extract_text_from_slide`: per shape, its own stripped text (when the
shape has a non-empty `text` attribute), then table cell text for table
shapes, then sub-shape texts for group shapes; all joined with newlines. -/
def extract_text_from_slide (sl : Slide) : String :=
  joinSep "\n" (List.flatten (sl.shapes.map (fun sh =>
    (match sh.text with
      | some t => if pyStrip t ≠ "" then [pyStrip t] else []
      | none => [])
    ++ (if sh.shape_type == msoTable then
          (if extract_text_from_table sh ≠ "" then [extract_text_from_table sh] else [])
        else [])
    ++ (match sh.sub_shapes with
        | some subs => subs.filterMap (fun t? => match t? with
            | some t => if pyStrip t ≠ "" then some (pyStrip t) else none
            | none => none)
        | none => []))))

/-- Replace every shape's table-cell grid (all other attributes unchanged). -/
def setTableCells (sl : Slide) (f : Shape → List (List String)) : Slide :=
  ⟨sl.shapes.map (fun sh => { sh with table_cells := f sh })⟩

theorem foldl_filter_text_map (g : Shape → Shape) (hg : ∀ sh, (g sh).text = sh.text)
    (shapes : List Shape) (acc : String) :
    (shapes.map g).foldl
      (fun acc sh =>
        match sh.text with
        | some t => if pyStrip t ≠ "" then acc ++ " " ++ pyLower (pyStrip t) else acc
        | none => acc) acc
    = shapes.foldl
      (fun acc sh =>
        match sh.text with
        | some t => if pyStrip t ≠ "" then acc ++ " " ++ pyLower (pyStrip t) else acc
        | none => acc) acc := by
  induction shapes generalizing acc with
  | nil => rfl
  | cons sh rest ih =>
    simp only [List.map_cons, List.foldl_cons, hg sh]
    exact ih _

/-- A table whose only occurrence of a skip phrase sits in its cells. -/
def thanksTableShape : Shape :=
  { shape_type := msoTable, name := "Table 7", text := none,
    table_cells := [["thank you", "everyone"]],
    sub_shapes := none, has_placeholder_format := false }

def thanksInCellsSlide : Slide := ⟨[thanksTableShape, agendaShape]⟩

/-- C10: the filter text never reads table cells — replacing every cell grid
leaves the filter text and the removal decision unchanged — and a concrete
slide whose "thank you" lives only in table cells is kept as valid, even
though the repository's own table extractor does surface that phrase. -/
theorem filter_ignores_table_cell_text (sl : Slide) (f : Shape → List (List String)) :
    slideFilterText (setTableCells sl f) = slideFilterText sl
  ∧ shouldSkipSlide (setTableCells sl f) = shouldSkipSlide sl
  ∧ shouldSkipSlide thanksInCellsSlide = false
  ∧ "thank you".data <:+: (extract_text_from_table thanksTableShape).data
  ∧ filter_useless_slides [thanksInCellsSlide] = ([1], []) := by
  have h1 : slideFilterText (setTableCells sl f) = slideFilterText sl :=
    foldl_filter_text_map (fun sh => { sh with table_cells := f sh })
      (fun _ => rfl) sl.shapes ""
  refine ⟨h1, ?_, by decide, by decide, by decide⟩
  unfold shouldSkipSlide
  rw [h1]

end PPTX

namespace PPTX

/-! ### Simple-slide text extraction (`_extract_fallback_text_from_slides`) -/

/-- The `slide_text` list collected per slide: stripped texts of shapes
that have a non-empty `text` attribute, in traversal order. -/
def slide_text_parts (sl : Slide) : List String :=
  sl.shapes.filterMap (fun sh =>
    match sh.text with
    | some t => if pyStrip t ≠ "" then some (pyStrip t) else none
    | none => none)

/-- The per-slide block: `"## {doc}:slide-{n}\n\n"` followed by the slide
texts joined with blank lines. -/
def fallback_block (slides : List Slide) (source_file : String) (idx : Nat) : String :=
  "## " ++ source_file ++ ":slide-" ++ toString idx ++ "\n\n" ++
    joinSep "\n\n" (slide_text_parts (slides.getD (idx - 1) default))

/-- The loop of `_extract_fallback_text_from_slides`: one block per slide
with non-empty text, in the order of `simple_slides`. -/
def extract_fallback_blocks (slides : List Slide) (source_file : String) :
    List Nat → List String
  | [] => []
  | idx :: rest =>
    if (slide_text_parts (slides.getD (idx - 1) default)).isEmpty then
      extract_fallback_blocks slides source_file rest
    else
      fallback_block slides source_file idx :: extract_fallback_blocks slides source_file rest

/-- `_extract_fallback_text_from_slides` (also the body of
`_process_simple_slides_with_text_extraction`). -/
def extract_fallback_text_from_slides (slides : List Slide) (source_file : String)
    (simple_slides : List Nat) : String :=
  joinSep "\n\n" (extract_fallback_blocks slides source_file simple_slides)

/-- The indices that contribute a block, in emission order. -/
def fallback_block_indices (slides : List Slide) (l : List Nat) : List Nat :=
  l.filter (fun idx => !(slide_text_parts (slides.getD (idx - 1) default)).isEmpty)

/-! ### The merged document (`_process_csvs_and_combine_results`) -/

/-- A Python dict is modelled as an association list in insertion order;
`sorted(d.keys())` is an ascending stable sort of the key list. -/
def sortedKeys (d : List (Nat × String)) : List Nat :=
  List.insertionSort (· ≤ ·) (d.map Prod.fst)

/-- Dict lookup `d[k]` (keys are unique in the dicts the processor builds). -/
def dget (d : List (Nat × String)) (k : Nat) : String :=
  ((d.find? (fun p => p.1 == k)).map Prod.snd).getD ""

/-- The Simple section of the enhanced markdown. -/
def simple_section (markdown_content : String) : String :=
  if markdown_content ≠ "" then
    "# Simple Slides (Text Extraction)\n\n" ++ markdown_content ++ "\n\n"
  else ""

/-- The Complex section: descriptions in ascending slide-index order. -/
def complex_section (complexD : List (Nat × String)) : String :=
  if complexD ≠ [] then
    "# Complex Slides (Gemini Vision Analysis)\n\n" ++
      String.join ((sortedKeys complexD).map (fun i => dget complexD i ++ "\n\n"))
  else ""

/-- The Table section: per-slide headers and descriptions in ascending
slide-index order. -/
def table_section (tableD : List (Nat × String)) (source_file : String) : String :=
  if tableD ≠ [] then
    "# Table Slides (Gemini Analysis)\n\n" ++
      String.join ((sortedKeys tableD).map (fun i =>
        "## " ++ source_file ++ ":slide-" ++ toString i ++ "\n\n" ++ dget tableD i ++ "\n\n"))
  else ""

/-- The `enhanced_markdown` accumulator of `_process_csvs_and_combine_results`,
mirroring the sequence of appends: simple content first, then the complex
descriptions over `sorted(complex_slide_descriptions.keys())`, then the
table descriptions over `sorted(processed_tables.keys())`. -/
def enhanced_markdown (markdown_content : String) (complexD tableD : List (Nat × String))
    (source_file : String) : String :=
  let em := ""
  let em := if markdown_content ≠ "" then
      em ++ "# Simple Slides (Text Extraction)\n\n" ++ markdown_content ++ "\n\n"
    else em
  let em := if complexD ≠ [] then
      em ++ "# Complex Slides (Gemini Vision Analysis)\n\n" ++
        String.join ((sortedKeys complexD).map (fun i => dget complexD i ++ "\n\n"))
    else em
  if tableD ≠ [] then
    em ++ "# Table Slides (Gemini Analysis)\n\n" ++
      String.join ((sortedKeys tableD).map (fun i =>
        "## " ++ source_file ++ ":slide-" ++ toString i ++ "\n\n" ++ dget tableD i ++ "\n\n"))
  else em

theorem str_empty_append (s : String) : "" ++ s = s := rfl

theorem str_append_empty (s : String) : s ++ "" = s :=
  congrArg String.mk (List.append_nil s.data)

theorem str_append_assoc (a b c : String) : a ++ b ++ c = a ++ (b ++ c) :=
  congrArg String.mk (List.append_assoc a.data b.data c.data)

/-! ### Sortedness of the pipeline index lists -/

theorem filterAux_sorted (start : Nat) (l : List Slide) :
    List.Sorted (· < ·) (filterAux start l).1 ∧ List.Sorted (· < ·) (filterAux start l).2 := by
  induction l generalizing start with
  | nil => simp [filterAux]
  | cons sl rest ih =>
    cases hs : shouldSkipSlide sl with
    | true =>
      rw [filterAux_cons_true hs]
      refine ⟨(ih (start + 1)).1, ?_⟩
      rw [List.sorted_cons]
      exact ⟨fun b hb => Nat.lt_of_succ_le (filterAux_snd_lb hb), (ih (start + 1)).2⟩
    | false =>
      rw [filterAux_cons_false hs]
      refine ⟨?_, (ih (start + 1)).2⟩
      rw [List.sorted_cons]
      exact ⟨fun b hb => Nat.lt_of_succ_le (filterAux_fst_lb hb), (ih (start + 1)).1⟩

theorem separate_sublist (slides : List Slide) (valid : List Nat) :
    List.Sublist (separate_slides_by_complexity slides valid).1 valid
  ∧ List.Sublist (separate_slides_by_complexity slides valid).2.1 valid
  ∧ List.Sublist (separate_slides_by_complexity slides valid).2.2 valid := by
  induction valid with
  | nil =>
    refine ⟨?_, ?_, ?_⟩ <;> simp [separate_slides_by_complexity]
  | cons idx rest ih =>
    cases hc : classify_slide (slides.getD (idx - 1) default) with
    | table =>
      simp only [separate_slides_by_complexity, hc]
      exact ⟨ih.1.cons₂ idx, ih.2.1.cons idx, ih.2.2.cons idx⟩
    | complex =>
      simp only [separate_slides_by_complexity, hc]
      exact ⟨ih.1.cons idx, ih.2.1.cons₂ idx, ih.2.2.cons idx⟩
    | simple =>
      simp only [separate_slides_by_complexity, hc]
      exact ⟨ih.1.cons idx, ih.2.1.cons idx, ih.2.2.cons₂ idx⟩

/-- The simple-slide index list the pipeline feeds to the text extractor:
valid slides (from the filter) classified Simple. -/
def pipelineSimple (slides : List Slide) : List Nat :=
  (separate_slides_by_complexity slides (filter_useless_slides slides).1).2.2

theorem pipelineSimple_sorted (slides : List Slide) :
    List.Sorted (· < ·) (pipelineSimple slides) :=
  List.Pairwise.sublist (separate_sublist slides (filter_useless_slides slides).1).2.2
    (filterAux_sorted 1 slides).1

theorem extract_fallback_blocks_eq (slides : List Slide) (f : String) (l : List Nat) :
    extract_fallback_blocks slides f l =
      (fallback_block_indices slides l).map (fallback_block slides f) := by
  induction l with
  | nil => rfl
  | cons idx rest ih =>
    cases hp : (slide_text_parts (slides.getD (idx - 1) default)).isEmpty with
    | true =>
      simp only [extract_fallback_blocks, hp, if_true, fallback_block_indices,
        List.filter_cons, Bool.not_true, ih]
      rfl
    | false =>
      simp only [extract_fallback_blocks, hp, Bool.false_eq_true, if_false,
        fallback_block_indices, List.filter_cons, Bool.not_false, ih]
      rfl

end PPTX

namespace PPTX

/-- C5: the merged document is the Simple section, then the Complex section,
then the Table section; the Complex and Table sections iterate slide
indices in ascending order; the pipeline's simple-slide list is strictly
ascending and the Simple section's per-slide blocks follow exactly that
order (one block per simple slide with non-empty text). -/
theorem merged_document_section_and_slide_order
    (md : String) (cD tD : List (Nat × String)) (f : String) (slides : List Slide) :
    enhanced_markdown md cD tD f =
      simple_section md ++ complex_section cD ++ table_section tD f
  ∧ List.Sorted (· ≤ ·) (sortedKeys cD)
  ∧ List.Sorted (· ≤ ·) (sortedKeys tD)
  ∧ List.Sorted (· < ·) (pipelineSimple slides)
  ∧ extract_fallback_blocks slides f (pipelineSimple slides) =
      (fallback_block_indices slides (pipelineSimple slides)).map (fallback_block slides f)
  ∧ List.Sorted (· < ·) (fallback_block_indices slides (pipelineSimple slides)) := by
  refine ⟨?_, List.sorted_insertionSort (· ≤ ·) (cD.map Prod.fst),
    List.sorted_insertionSort (· ≤ ·) (tD.map Prod.fst),
    pipelineSimple_sorted slides,
    extract_fallback_blocks_eq slides f (pipelineSimple slides),
    List.Pairwise.sublist (List.filter_sublist (pipelineSimple slides))
      (pipelineSimple_sorted slides)⟩
  unfold enhanced_markdown simple_section complex_section table_section
  split_ifs <;>
    simp only [str_append_assoc, str_empty_append, str_append_empty]

end PPTX

namespace PPTX

/-! ### Record titles (`_extract_title_from_section`, claim C8) -/

/-- Python `s.split("\n")`, character by character. -/
def splitNlAux : List Char → List Char → List (List Char)
  | [], acc => [acc.reverse]
  | '\n' :: rest, acc => acc.reverse :: splitNlAux rest []
  | c :: rest, acc => splitNlAux rest (c :: acc)

def pySplitNl (s : String) : List String :=
  (splitNlAux s.data []).map String.mk

/-- Python `s.split("\n\n")`: left-to-right non-overlapping split on the
two-character separator. -/
def splitBlankAux : List Char → List Char → List (List Char)
  | [], acc => [acc.reverse]
  | '\n' :: '\n' :: rest, acc => acc.reverse :: splitBlankAux rest []
  | c :: rest, acc => splitBlankAux rest (c :: acc)

def pySplitBlank (s : String) : List String :=
  (splitBlankAux s.data []).map String.mk

/-- `re.sub(r"[#*\x2d]+", "", s)`: delete every "#", "*" and "-". -/
def removeMarkers (s : String) : String :=
  String.mk (s.data.filter (fun c => !(c == '#' || c == '*' || c == '-')))

/-- `re.sub(r"[#*\x2d!]+", "", s)`: delete every "#", "*", "-" and "!". -/
def removeMarkersBang (s : String) : String :=
  String.mk (s.data.filter (fun c => !(c == '#' || c == '*' || c == '-' || c == '!')))

/-- Python `s.startswith("!")`. -/
def startsWithBang (s : String) : Bool :=
  match s.data with
  | c :: _ => c == '!'
  | [] => false

/-- The line loop of `_extract_title_from_section`: take the first stripped
line that is non-empty, does not start with "!", is under 100 characters
and whose marker-stripped form is non-empty, truncated to 80 characters;
when no line qualifies, fall back to the cleaned content truncated to 50
characters (with "..." appended when it was longer). -/
def title_from_lines (section_text : String) : List String → String
  | [] =>
    if (pyStrip (removeMarkersBang section_text)).length > 50 then
      pyTake 50 (pyStrip (removeMarkersBang section_text)) ++ "..."
    else pyStrip (removeMarkersBang section_text)
  | line :: rest =>
    if pyStrip line ≠ "" ∧ startsWithBang (pyStrip line) = false ∧ (pyStrip line).length < 100 then
      (if pyStrip (removeMarkers (pyStrip line)) ≠ "" then
        pyTake 80 (pyStrip (removeMarkers (pyStrip line)))
      else title_from_lines section_text rest)
    else title_from_lines section_text rest

/-- `_extract_title_from_section`. -/
def extract_title_from_section (section_text : String) : String :=
  title_from_lines section_text (pySplitNl section_text)

/-- The title rule exactly as claim C8 words it: the first non-empty line
under 100 characters, with markdown marker characters stripped and the
result truncated to 80 characters; if no such line exists, the first 50
characters of the cleaned content. -/
def title_per_claim (section_text : String) : String :=
  match (pySplitNl section_text).find? (fun line =>
      !(pyStrip line == "") && decide ((pyStrip line).length < 100)) with
  | some line => pyTake 80 (pyStrip (removeMarkers (pyStrip line)))
  | none => pyTake 50 (pyStrip (removeMarkersBang section_text))

/-- Counterexample to C8 as stated: on `"!pic\nHello Title"` the claim's
rule picks the first line `"!pic"`, but the code skips lines that start
with `"!"` and returns `"Hello Title"`. -/
theorem title_extraction_claim_counterexample :
    extract_title_from_section "!pic\nHello Title" = "Hello Title"
  ∧ title_per_claim "!pic\nHello Title" = "!pic"
  ∧ extract_title_from_section "!pic\nHello Title" ≠
      title_per_claim "!pic\nHello Title" := by
  refine ⟨by decide, by decide, by decide⟩

/-- The qualifying-line selector of the amended title rule. -/
def title_line_choice (line : String) : Option String :=
  if pyStrip line ≠ "" ∧ startsWithBang (pyStrip line) = false ∧
      (pyStrip line).length < 100 ∧ pyStrip (removeMarkers (pyStrip line)) ≠ "" then
    some (pyTake 80 (pyStrip (removeMarkers (pyStrip line))))
  else none

/-- The amended C8 rule: first non-empty stripped line under 100 characters
not starting with "!" whose marker-stripped form is non-empty, truncated
to 80; otherwise the cleaned content truncated to 50 characters, with
"..." appended when the cleaned content exceeds 50 characters. -/
def title_amended (section_text : String) : String :=
  match (pySplitNl section_text).findSome? title_line_choice with
  | some t => t
  | none =>
    if (pyStrip (removeMarkersBang section_text)).length > 50 then
      pyTake 50 (pyStrip (removeMarkersBang section_text)) ++ "..."
    else pyStrip (removeMarkersBang section_text)

theorem title_from_lines_cons (sec line : String) (rest : List String) :
    title_from_lines sec (line :: rest) =
      if pyStrip line ≠ "" ∧ startsWithBang (pyStrip line) = false ∧ (pyStrip line).length < 100 then
        (if pyStrip (removeMarkers (pyStrip line)) ≠ "" then
          pyTake 80 (pyStrip (removeMarkers (pyStrip line)))
        else title_from_lines sec rest)
      else title_from_lines sec rest := rfl

theorem title_from_lines_eq (sec : String) (lines : List String) :
    title_from_lines sec lines =
      match lines.findSome? title_line_choice with
      | some t => t
      | none => title_from_lines sec [] := by
  induction lines with
  | nil => rfl
  | cons line rest ih =>
    rw [List.findSome?_cons]
    unfold title_line_choice
    by_cases h1 : pyStrip line ≠ "" ∧ startsWithBang (pyStrip line) = false ∧
        (pyStrip line).length < 100
    · by_cases h2 : pyStrip (removeMarkers (pyStrip line)) ≠ ""
      · rw [if_pos ⟨h1.1, h1.2.1, h1.2.2, h2⟩, title_from_lines_cons, if_pos h1, if_pos h2]
      · rw [if_neg (fun hc => h2 hc.2.2.2)]
        show title_from_lines sec (line :: rest) =
          match rest.findSome? title_line_choice with
          | some t => t
          | none => title_from_lines sec []
        rw [← ih, title_from_lines_cons, if_pos h1, if_neg h2]
    · rw [if_neg (fun hc => h1 ⟨hc.1, hc.2.1, hc.2.2.1⟩)]
      show title_from_lines sec (line :: rest) =
        match rest.findSome? title_line_choice with
        | some t => t
        | none => title_from_lines sec []
      rw [← ih, title_from_lines_cons, if_neg h1]

/-- C8 amended and proved: `_extract_title_from_section` computes exactly
the amended title rule. -/
theorem extract_title_matches_amended_spec (section_text : String) :
    extract_title_from_section section_text = title_amended section_text := by
  unfold extract_title_from_section title_amended
  rw [title_from_lines_eq]
  cases List.findSome? title_line_choice (pySplitNl section_text) <;> rfl

end PPTX

namespace PPTX

/-! ### Structured records (`_extract_sections_from_markdown`,
`_process_csvs_and_combine_results`, claim C6) -/

structure MdRecord where
  source : String
  title : String
  content : String
deriving DecidableEq

/-- The loop of `_extract_sections_from_markdown`: 0-based enumeration of the
blank-line-separated pages; one record per stripped section that is
non-empty and longer than 50 characters, with sequential slide
attribution `i + 1`. -/
def sections_from (source_file : String) : Nat → List String → List MdRecord
  | _, [] => []
  | i, page :: rest =>
    (if pyStrip page ≠ "" ∧ (pyStrip page).length > 50 then
      [{ source := source_file ++ ":slide-" ++ toString (i + 1),
         title := extract_title_from_section (pyStrip page),
         content := pyStrip page }]
     else [])
    ++ sections_from source_file (i + 1) rest

/-- `_extract_sections_from_markdown`. -/
def extract_sections_from_markdown (markdown_content : String) (source_file : String) :
    List MdRecord :=
  sections_from source_file 0 (pySplitBlank markdown_content)

/-- The `markdown_data` list built by `_process_csvs_and_combine_results`:
sections from the simple-slide markdown (when non-empty), then one record
per complex slide, then one record per table slide, in dict insertion
order. -/
def markdown_data (markdown_content : String) (complexD tableD : List (Nat × String))
    (source_file : String) : List MdRecord :=
  (if markdown_content ≠ "" then extract_sections_from_markdown markdown_content source_file
   else [])
  ++ complexD.map (fun p =>
      { source := source_file ++ ":slide-" ++ toString p.1,
        title := "Complex Slide " ++ toString p.1 ++ " Analysis",
        content := p.2 })
  ++ tableD.map (fun p =>
      { source := source_file ++ ":slide-" ++ toString p.1,
        title := "Table Slide " ++ toString p.1 ++ " Analysis",
        content := p.2 })

/-- The number of processed simple slides that produced non-empty output. -/
def nonemptySimpleCount (slides : List Slide) (simple : List Nat) : Nat :=
  (fallback_block_indices slides simple).length

/-- Claim C6 as stated: at least one record per processed slide with
non-empty output (every simple slide with non-empty extracted text, plus
every complex and every table entry). -/
def RecordsLowerBoundClaim : Prop :=
  ∀ (slides : List Slide) (simple : List Nat) (cD tD : List (Nat × String)) (f : String),
    (markdown_data (extract_fallback_text_from_slides slides f simple) cD tD f).length
      ≥ nonemptySimpleCount slides simple + cD.length + tD.length

def helloShape : Shape :=
  { shape_type := msoTextBox, name := "TextBox 9", text := some "Hello",
    table_cells := [], sub_shapes := none, has_placeholder_format := false }

def helloSlide : Slide := ⟨[helloShape]⟩

/-- Counterexample to C6 as stated: one simple slide whose extracted text is
the short non-empty string "Hello" yields the markdown
`"## a.pptx:slide-1\n\nHello"`; splitting on blank lines gives only
sections of at most 50 characters, so zero records are produced although
one processed slide had non-empty output. -/
theorem records_lower_bound_counterexample :
    (markdown_data (extract_fallback_text_from_slides [helloSlide] "a.pptx" [1])
        [] [] "a.pptx").length = 0
  ∧ nonemptySimpleCount [helloSlide] [1] = 1
  ∧ ¬ RecordsLowerBoundClaim := by
  refine ⟨by decide, by decide, fun hc => ?_⟩
  exact absurd (hc [helloSlide] [1] [] [] "a.pptx") (by decide)

/-- C6 amended: each complex and each table entry contributes exactly one
record, so the record count equals the number of substantial (longer than
50 characters) blank-line sections of the simple-slide markdown plus the
complex and table counts; in particular it is at least the complex count
plus the table count, while a simple slide with non-empty but short
output can contribute zero records. -/
theorem records_count_sections_plus_complex_plus_table
    (md : String) (cD tD : List (Nat × String)) (f : String) :
    (markdown_data md cD tD f).length =
      (if md ≠ "" then (extract_sections_from_markdown md f).length else 0)
        + cD.length + tD.length
  ∧ (markdown_data md cD tD f).length ≥ cD.length + tD.length := by
  constructor
  · unfold markdown_data
    by_cases h : md = ""
    · simp [h]
    · simp [h]
      omega
  · unfold markdown_data
    by_cases h : md = ""
    · simp [h]
    · simp [h]

end PPTX

namespace PPTX

/-! ### The image-based strategy (`_convert_slide_to_image_and_process`)
and the per-slide loops (claims C7, C9).

External capabilities are oracles: `render idx` is the image path produced
by `export_slide_as_image` (`none` models "all slide export methods
failed"), `describe idx path` is the Gemini Vision description for a
successfully rendered slide. -/

/-- `_convert_slide_to_image_and_process` for one slide. -/
def convert_slide_to_image_and_process (render_result : Option String)
    (describe : String → String) (sl : Slide) (slide_idx : Nat) : String :=
  match render_result with
  | some image_path => describe image_path
  | none =>
    if pyStrip (extract_text_from_slide sl) ≠ "" then
      "**Slide " ++ toString slide_idx ++ " Content (text-only fallback):**\n" ++
        extract_text_from_slide sl ++
        "\n\n*Note: Image processing failed, using text extraction only*"
    else
      "[Slide " ++ toString slide_idx ++
        ": Image processing failed and no text content available]"

/-- The loop of `_process_complex_slides_with_gemini`: one formatted entry
per complex slide, keyed by slide index, in list order. -/
def process_complex_slides (slides : List Slide) (source_file : String)
    (render : Nat → Option String) (describe : Nat → String → String) :
    List Nat → List (Nat × String)
  | [] => []
  | idx :: rest =>
    (idx, "## " ++ source_file ++ ":slide-" ++ toString idx ++ "\n\n" ++
        convert_slide_to_image_and_process (render idx) (describe idx)
          (slides.getD (idx - 1) default) idx)
      :: process_complex_slides slides source_file render describe rest

/-- The loop of `_process_table_slides`: one entry per table slide holding
the Gemini description produced by the image strategy. -/
def process_table_slides (slides : List Slide) (source_file : String)
    (render : Nat → Option String) (describe : Nat → String → String) :
    List Nat → List (Nat × String)
  | [] => []
  | idx :: rest =>
    (idx, convert_slide_to_image_and_process (render idx) (describe idx)
        (slides.getD (idx - 1) default) idx)
      :: process_table_slides slides source_file render describe rest

/-- A raised Python exception: message and exception class name. -/
structure PyExn where
  message : String
  exn_type : String

/-- The value returned by `process_powerpoint_file`: either the combined
result dict of `_process_csvs_and_combine_results`, or the
`{success: False, error, exception_type}` dict built by the
top-level `except` handler. -/
inductive ProcessResult where
  | ok (source_file : String) (total_markdown_entries : Nat)
      (enhanced_markdown : String) (markdown_data : List MdRecord)
  | failure (error : String) (exception_type : String)

/-- `_process_csvs_and_combine_results`, restricted to the fields the claims
speak about. -/
def process_csvs_and_combine_results (markdown_content : String)
    (tableD : List (Nat × String)) (source_file : String)
    (complexD : List (Nat × String)) : ProcessResult :=
  ProcessResult.ok source_file
    (markdown_data markdown_content complexD tableD source_file).length
    (enhanced_markdown markdown_content complexD tableD source_file)
    (markdown_data markdown_content complexD tableD source_file)

/-- `process_powerpoint_file`: the whole body runs inside one `try`; a
document-level failure (the parse raising) is caught and returned as the
failure dict; otherwise the filter/classify/route/merge pipeline runs. -/
def process_powerpoint_file (render : Nat → Option String)
    (describe : Nat → String → String) (parse : Except PyExn (List Slide))
    (file_name : String) : ProcessResult :=
  match parse with
  | Except.error e => ProcessResult.failure e.message e.exn_type
  | Except.ok slides =>
    let valid := (filter_useless_slides slides).1
    let cats := separate_slides_by_complexity slides valid
    let tableD := process_table_slides slides file_name render describe cats.1
    let complexD := process_complex_slides slides file_name render describe cats.2.1
    let md := extract_fallback_text_from_slides slides file_name cats.2.2
    process_csvs_and_combine_results md tableD file_name complexD

end PPTX

namespace PPTX

theorem str_data_append (a b : String) : (a ++ b).data = a.data ++ b.data := rfl

theorem mid_chunk_contains {x m : List Char} (l r : List Char) (h : x <:+: m) :
    x <:+: (l ++ m ++ r) := by
  obtain ⟨s, t, hst⟩ := h
  exact ⟨l ++ s, t ++ r, by rw [← hst]; simp [List.append_assoc]⟩

/-- C7: `process_powerpoint_file` always returns a result value — callers can
check the success shape instead of catching exceptions; a document-level
error is returned as the failure shape carrying the error message and the
exception class name, and the failure shape arises only from such an
error. -/
theorem process_powerpoint_file_always_returns_result
    (render : Nat → Option String) (describe : Nat → String → String)
    (parse : Except PyExn (List Slide)) (file_name : String) :
    ((∃ src n em data, process_powerpoint_file render describe parse file_name =
        ProcessResult.ok src n em data)
      ∨ (∃ msg ty, process_powerpoint_file render describe parse file_name =
        ProcessResult.failure msg ty))
  ∧ (∀ e : PyExn, parse = Except.error e →
      process_powerpoint_file render describe parse file_name =
        ProcessResult.failure e.message e.exn_type)
  ∧ (∀ msg ty, process_powerpoint_file render describe parse file_name =
        ProcessResult.failure msg ty →
      ∃ e : PyExn, parse = Except.error e ∧ msg = e.message ∧ ty = e.exn_type) := by
  cases parse with
  | error e =>
    refine ⟨Or.inr ⟨e.message, e.exn_type, rfl⟩,
      fun e2 he => by cases he; rfl, fun msg ty h => ?_⟩
    have h2 : ProcessResult.failure e.message e.exn_type =
        ProcessResult.failure msg ty := h
    injection h2 with hm ht
    exact ⟨e, rfl, hm.symm, ht.symm⟩
  | ok slides =>
    refine ⟨Or.inl ⟨_, _, _, _, rfl⟩,
      fun e he => absurd he (by simp), fun msg ty h => ?_⟩
    simp [process_powerpoint_file, process_csvs_and_combine_results] at h

theorem process_powerpoint_file_always_returns_result_witness :
    process_powerpoint_file (fun _ => none) (fun _ _ => "")
      (Except.error ⟨"Package not found", "PackageNotFoundError"⟩) "deck.pptx" =
      ProcessResult.failure "Package not found" "PackageNotFoundError" :=
  (process_powerpoint_file_always_returns_result (fun _ => none) (fun _ _ => "")
      (Except.error ⟨"Package not found", "PackageNotFoundError"⟩) "deck.pptx").2.1
    ⟨"Package not found", "PackageNotFoundError"⟩ rfl

/-- C9: when every rendering attempt fails, a slide with non-empty extracted
text yields exactly the raw text wrapped with the "(text-only fallback)"
marker (the marker and the raw text both occur in the output); a slide
without text yields the placeholder naming its slide index; and the
per-slide loop still produces one entry per slide, each depending only on
that slide's own render result, so one slide's failure never drops or
alters the entries of the others. -/
theorem image_strategy_fallback_and_isolation (describe : String → String)
    (sl : Slide) (slide_idx : Nat) (slides : List Slide) (source_file : String)
    (render : Nat → Option String) (describeO : Nat → String → String)
    (complex_slides : List Nat) :
    (pyStrip (extract_text_from_slide sl) ≠ "" →
      convert_slide_to_image_and_process none describe sl slide_idx =
        "**Slide " ++ toString slide_idx ++ " Content (text-only fallback):**\n" ++
          extract_text_from_slide sl ++
          "\n\n*Note: Image processing failed, using text extraction only*"
      ∧ "(text-only fallback)".data <:+:
          (convert_slide_to_image_and_process none describe sl slide_idx).data
      ∧ (extract_text_from_slide sl).data <:+:
          (convert_slide_to_image_and_process none describe sl slide_idx).data)
  ∧ (pyStrip (extract_text_from_slide sl) = "" →
      convert_slide_to_image_and_process none describe sl slide_idx =
        "[Slide " ++ toString slide_idx ++
          ": Image processing failed and no text content available]")
  ∧ process_complex_slides slides source_file render describeO complex_slides =
      complex_slides.map (fun i =>
        (i, "## " ++ source_file ++ ":slide-" ++ toString i ++ "\n\n" ++
          convert_slide_to_image_and_process (render i) (describeO i)
            (slides.getD (i - 1) default) i))
  ∧ (process_complex_slides slides source_file render describeO complex_slides).map
      Prod.fst = complex_slides := by
  have hmap : process_complex_slides slides source_file render describeO complex_slides =
      complex_slides.map (fun i =>
        (i, "## " ++ source_file ++ ":slide-" ++ toString i ++ "\n\n" ++
          convert_slide_to_image_and_process (render i) (describeO i)
            (slides.getD (i - 1) default) i)) := by
    induction complex_slides with
    | nil => rfl
    | cons idx rest ih => simp [process_complex_slides, ih]
  refine ⟨fun h => ?_, fun h => ?_, hmap, by simp [hmap, List.map_map, Function.comp_def]⟩
  · have hout : convert_slide_to_image_and_process none describe sl slide_idx =
        "**Slide " ++ toString slide_idx ++ " Content (text-only fallback):**\n" ++
          extract_text_from_slide sl ++
          "\n\n*Note: Image processing failed, using text extraction only*" := by
      unfold convert_slide_to_image_and_process
      rw [if_pos h]
    refine ⟨hout, ?_, ?_⟩
    · rw [hout]
      have heq : ("**Slide " ++ toString slide_idx ++
            " Content (text-only fallback):**\n" ++ extract_text_from_slide sl ++
            "\n\n*Note: Image processing failed, using text extraction only*").data =
          ("**Slide ".data ++ (toString slide_idx).data) ++
            " Content (text-only fallback):**\n".data ++
            ((extract_text_from_slide sl).data ++
              "\n\n*Note: Image processing failed, using text extraction only*".data) := by
        simp [str_data_append, List.append_assoc]
      rw [heq]
      exact mid_chunk_contains _ _ (by decide)
    · rw [hout]
      have heq : ("**Slide " ++ toString slide_idx ++
            " Content (text-only fallback):**\n" ++ extract_text_from_slide sl ++
            "\n\n*Note: Image processing failed, using text extraction only*").data =
          ("**Slide ".data ++ (toString slide_idx).data ++
            " Content (text-only fallback):**\n".data) ++
            (extract_text_from_slide sl).data ++
            "\n\n*Note: Image processing failed, using text extraction only*".data := by
        simp [str_data_append, List.append_assoc]
      rw [heq]
      exact mid_chunk_contains _ _ ⟨[], [], by simp⟩
  · unfold convert_slide_to_image_and_process
    rw [if_neg (fun hc => hc h)]

theorem image_strategy_fallback_and_isolation_witness :
    convert_slide_to_image_and_process none (fun _ => "") (Slide.mk []) 3 =
      "[Slide " ++ toString 3 ++ ": Image processing failed and no text content available]"
  ∧ "(text-only fallback)".data <:+:
      (convert_slide_to_image_and_process none (fun _ => "") helloSlide 2).data :=
  ⟨(image_strategy_fallback_and_isolation (fun _ => "") (Slide.mk []) 3 [] "a.pptx"
      (fun _ => none) (fun _ _ => "") []).2.1 (by decide),
   ((image_strategy_fallback_and_isolation (fun _ => "") helloSlide 2 [] "a.pptx"
      (fun _ => none) (fun _ _ => "") []).1 (by decide)).2.1⟩

end PPTX
